import Mathlib

/-!
Verification development for the piorka product-catalog backend.

This file is a shallow embedding of the Stripe-synchronization logic of the
repository: `backend/home/stripe_sync.py` (the `StripeSync` service),
`backend/home/signals.py` (the pre/post-save dispatcher policy),
`backend/home/api/webhooks.py` (the webhook reconciler) and the
slug-assignment part of `Product.save` in `backend/home/models.py`.

External collaborators (the Stripe client library, the ORM save, Django's
`slugify`) are modelled explicitly: remote Stripe calls act on an explicit
`StripeState` and may fail according to an injected fault schedule, local
saves may fail according to a separate schedule, and every remote call is
recorded in a trace.  CPython `float` arithmetic (IEEE binary64) is modelled
exactly with rational arithmetic and round-to-nearest-even.
-/

namespace Piorka

/-! ## Decimal rendering of naturals (Python `str(n)` / f-strings) -/

/-- Decimal digit list, most significant first, by structural recursion on a
fuel bound (so that it reduces inside the kernel); correct when the fuel is
at least the number of digits. -/
def natDigitsF (fuel n : Nat) : List Char :=
  match fuel with
  | 0 => []
  | fuel + 1 =>
    if n < 10 then [Char.ofNat (48 + n)]
    else natDigitsF fuel (n / 10) ++ [Char.ofNat (48 + n % 10)]

/-- Decimal digit list of a natural number, most significant first;
the character sequence produced by Python `str(n)` for `n : Nat`. -/
def natDigitsL (n : Nat) : List Char := natDigitsF (n + 1) n

/-- Decimal string of a natural number, as produced by Python `str(n)`. -/
def natDigits (n : Nat) : String := String.mk (natDigitsL n)

/-- Value of a decimal digit list (inverse of `natDigitsL`). -/
def digitsVal (l : List Char) : Nat :=
  l.foldl (fun a c => a * 10 + (c.toNat - 48)) 0

theorem digitsVal_append_single (l : List Char) (c : Char) :
    digitsVal (l ++ [c]) = 10 * digitsVal l + (c.toNat - 48) := by
  simp [digitsVal, List.foldl_append]
  omega

theorem digitsVal_natDigitsF (fuel : Nat) : ∀ n : Nat, n < 10 ^ fuel →
    digitsVal (natDigitsF fuel n) = n := by
  induction fuel with
  | zero =>
    intro n h
    simp only [pow_zero, Nat.lt_one_iff] at h
    subst h
    decide
  | succ fuel ih =>
    intro n h
    show digitsVal (if n < 10 then [Char.ofNat (48 + n)]
      else natDigitsF fuel (n / 10) ++ [Char.ofNat (48 + n % 10)]) = n
    by_cases h10 : n < 10
    · rw [if_pos h10]
      have hc : (Char.ofNat (48 + n)).toNat - 48 = n := by
        interval_cases n <;> decide
      simp [digitsVal, hc]
    · rw [if_neg h10, digitsVal_append_single, ih (n / 10) ?_]
      · have hr : n % 10 < 10 := Nat.mod_lt _ (by omega)
        have hmod : (Char.ofNat (48 + n % 10)).toNat - 48 = n % 10 := by
          set r := n % 10 with hrdef
          clear_value r
          interval_cases r <;> decide
        rw [hmod]
        omega
      · rw [pow_succ] at h
        exact Nat.div_lt_of_lt_mul (by omega)

theorem digitsVal_natDigitsL (n : Nat) : digitsVal (natDigitsL n) = n := by
  refine digitsVal_natDigitsF (n + 1) n ?_
  calc n < 10 ^ n := Nat.lt_pow_self (by norm_num) n
    _ ≤ 10 ^ (n + 1) := Nat.pow_le_pow_right (by norm_num) (Nat.le_succ n)

theorem natDigitsL_ne_nil (n : Nat) : natDigitsL n ≠ [] := by
  unfold natDigitsL natDigitsF
  split <;> simp

theorem natDigits_injective : Function.Injective natDigits := by
  intro m n h
  have hl : natDigitsL m = natDigitsL n := by
    have hd := congrArg String.data h
    simpa [natDigits] using hd
  have := digitsVal_natDigitsL m
  rw [hl, digitsVal_natDigitsL] at this
  omega

/-! ## Exact model of the CPython float arithmetic in `_price_to_grosze`

`StripeSync._price_to_grosze` computes `int(float(price_value) * 100)` where
`price_value` is a two-decimal-place `Decimal`.  We represent the decimal
price by its exact value in grosze `g` (the price is `g / 100` PLN) and model
the two binary64 roundings (decimal-to-float conversion and float
multiplication) exactly, as round-to-nearest, ties-to-even on rationals.
The inputs of interest are positive and far from the subnormal/overflow
range, where this model is exact IEEE-754 binary64. -/

/-- A nonnegative dyadic rational `num / den` with `den` a power of two:
the exact value of a nonnegative binary64 float. -/
structure Dyadic where
  num : Nat
  den : Nat
deriving DecidableEq, Repr

/-- `⌊log₂ n⌋` (0 for `n = 0`), by structural recursion on a fuel bound so
that it reduces inside the kernel; `fuel` must exceed the bit length. -/
def log2fuel (fuel n : Nat) : Nat :=
  match fuel with
  | 0 => 0
  | fuel + 1 => if 2 ≤ n then log2fuel fuel (n / 2) + 1 else 0

/-- `⌊log₂ (p / q)⌋` for positive rationals with `2⁻⁶⁴ ≤ p / q < 2¹⁹²`. -/
def ilog2 (p q : Nat) : Int :=
  (log2fuel 256 ((p * 2 ^ 64) / q) : Int) - 64

/-- Round the positive rational `p / q` to the nearest binary64 value
(ties to even), returned as an exact dyadic rational.  Models CPython's
correctly rounded `float(Decimal(...))` conversion and, applied to an exact
product, float multiplication. -/
def roundF (p q : Nat) : Dyadic :=
  if p = 0 then ⟨0, 1⟩ else
  let e : Int := ilog2 p q
  let s : Int := 52 - e
  let bigN : Nat := if 0 ≤ s then p * 2 ^ s.toNat else p
  let bigD : Nat := if 0 ≤ s then q else q * 2 ^ (-s).toNat
  let m0 := bigN / bigD
  let r := bigN % bigD
  let m :=
    if bigD < 2 * r then m0 + 1
    else if 2 * r < bigD then m0
    else if m0 % 2 = 0 then m0 else m0 + 1
  if 0 ≤ s then ⟨m, 2 ^ s.toNat⟩ else ⟨m * 2 ^ (-s).toNat, 1⟩

/-- `StripeSync._price_to_grosze` from `home/stripe_sync.py`:
`int(float(price_value) * 100)` — decimal price to float, float
multiplication by 100, truncation toward zero.  The argument `g` is the
exact price in grosze (the Decimal value is `g / 100` PLN). -/
def price_to_grosze (g : Nat) : Nat :=
  let x := roundF g 100
  let y := roundF (x.num * 100) x.den
  y.num / y.den

/-! ## Data model -/

/-- Product lifecycle status.
Modelled from the spec: the `ProductStatus` enumeration (`ACTIVE | INACTIVE |
SOLD`) is declared in the repository's `home/models.py` but that declaration
is not present in the provided sources (only its importers are); the string
values `'active'` and `'sold'` are visible in `home/stripe_sync.py`. -/
inductive ProductStatus where
  | active
  | inactive
  | sold
deriving DecidableEq, Repr

/-- A `Product` record (`home/models.py`), restricted to the fields read or
written by the synchronization, dispatcher and webhook logic.  `price` is the
`Decimal(max_digits=10, decimal_places=2)` base price, represented exactly by
its value in grosze (`price` grosze = `price / 100` PLN).
The fields `status` and `sold_at` are modelled from the spec: they are
declared in the repository's `home/models.py` but that declaration is not in
the provided sources; `sold_at` is a nullable timestamp. -/
structure Product where
  pk : Nat := 0
  name : String := ""
  tytul : String := ""
  slug : String := ""
  opis : String := ""
  description : String := ""
  price : Nat := 0
  status : ProductStatus := ProductStatus.active
  active : Bool := true
  sold_at : Option Nat := none
  stripe_product_id : String := ""
  stripe_price_id : String := ""
  primary_image_url : String := ""
  skip_stripe_sync : Bool := false
deriving DecidableEq, Repr

/-- `Product.is_buyable`.
Modelled from the spec: the property is declared in the repository's
`home/models.py` but that declaration is not in the provided sources; per the
spec it is "true iff status == ACTIVE and a remote price id exists". -/
def Product.is_buyable (p : Product) : Bool :=
  p.status == ProductStatus.active && !(p.stripe_price_id == "")

/-- Django settings read by the service (`STRIPE_SECRET_KEY`, `PUBLIC_URL`,
`STRIPE_WEBHOOK_SECRET`); an empty string models an absent/empty setting. -/
structure Settings where
  stripeSecretKey : String := ""
  publicUrl : String := ""
  stripeWebhookSecret : String := ""
deriving DecidableEq, Repr

/-! ## The remote provider (Stripe) and the local database as collaborators

Remote objects live in an explicit `StripeState`.  Each remote call appends a
record to a trace and consumes one entry of a fault schedule: a `some e`
entry makes the call raise `e`, a `none` entry (or an exhausted schedule)
lets the call behave honestly.  Local ORM saves consume a separate fault
schedule the same way.  Python exceptions relevant to the embedded code are
modelled by `PyExc`. -/

/-- The exceptions distinguished by the embedded code:
`stripe.error.InvalidRequestError` (a `StripeError`), any other
`stripe.error.StripeError`, `ValueError`, and any other `Exception`. -/
inductive PyExc where
  | invalidRequest (msg : String)
  | stripeErr (msg : String)
  | valueErr (msg : String)
  | otherErr (msg : String)
deriving DecidableEq, Repr

/-- `isinstance(e, stripe.error.StripeError)`. -/
def PyExc.isStripeError : PyExc → Bool
  | .invalidRequest _ => true
  | .stripeErr _ => true
  | _ => false

/-- `str(e)` for the modelled exceptions. -/
def PyExc.message : PyExc → String
  | .invalidRequest m => m
  | .stripeErr m => m
  | .valueErr m => m
  | .otherErr m => m

/-- A remote Stripe Product object. -/
structure RemoteProduct where
  name : String := ""
  description : Option String := none
  active : Bool := true
  metadata_wagtail_id : String := ""
  metadata_slug : String := ""
deriving DecidableEq, Repr

/-- A remote Stripe Price object. -/
structure RemotePrice where
  product : String := ""
  unit_amount : Nat := 0
  active : Bool := true
  currency : String := ""
deriving DecidableEq, Repr

/-- The remote provider's object store. -/
structure StripeState where
  products : List (String × RemoteProduct) := []
  prices : List (String × RemotePrice) := []
  nextId : Nat := 0
deriving DecidableEq, Repr

/-- Association-list lookup by id. -/
def lookupAssoc {α : Type} (l : List (String × α)) (k : String) : Option α :=
  (l.find? (fun kv => kv.1 == k)).map (fun kv => kv.2)

/-- Pointwise update of the entries with the given id. -/
def updateAssoc {α : Type} (l : List (String × α)) (k : String) (f : α → α) :
    List (String × α) :=
  l.map (fun kv => if kv.1 == k then (kv.1, f kv.2) else kv)

/-- Fresh remote Product id. -/
def freshProductId (s : StripeState) : String := "prod_" ++ natDigits s.nextId

/-- Fresh remote Price id. -/
def freshPriceId (s : StripeState) : String := "price_" ++ natDigits s.nextId

/-- Fresh checkout Session id. -/
def freshSessionId (s : StripeState) : String := "cs_" ++ natDigits s.nextId

/-- One remote API call, as recorded in the trace. -/
inductive RemoteCall where
  | productCreate
  | productModify (id : String)
  | priceCreate (productId : String) (amount : Nat)
  | priceRetrieve (id : String)
  | priceArchive (id : String)
  | sessionCreate (priceId : String)
deriving DecidableEq, Repr

/-- The world state threaded through the service: the remote store, the two
fault schedules, and the trace of remote calls made so far. -/
structure St where
  stripe : StripeState := {}
  faults : List (Option PyExc) := []
  dbFaults : List (Option String) := []
  trace : List RemoteCall := []
deriving DecidableEq, Repr

/-- Consume the next remote-call fault-schedule entry. -/
def St.takeFault (st : St) : Option PyExc × St :=
  match st.faults with
  | [] => (none, st)
  | f :: rest => (f, { st with faults := rest })

/-- Consume the next local-save fault-schedule entry. -/
def St.takeDbFault (st : St) : Option String × St :=
  match st.dbFaults with
  | [] => (none, st)
  | f :: rest => (f, { st with dbFaults := rest })

/-- `stripe.Product.create(...)`: returns the new product's id. -/
def stripeProductCreate (name : String) (description : Option String)
    (active : Bool) (meta_id meta_slug : String)
    (_images : List (Option String)) (st : St) : Except PyExc String × St :=
  let st := { st with trace := st.trace ++ [RemoteCall.productCreate] }
  match st.takeFault with
  | (some e, st) => (Except.error e, st)
  | (none, st) =>
    let id := freshProductId st.stripe
    (Except.ok id,
     { st with stripe :=
        { st.stripe with
          products := st.stripe.products ++
            [(id, { name := name, description := description, active := active,
                    metadata_wagtail_id := meta_id, metadata_slug := meta_slug })],
          nextId := st.stripe.nextId + 1 } })

/-- `stripe.Product.modify(id, name=..., description=..., active=...,
metadata=...)` as called from `create_or_update_product`. -/
def stripeProductUpdate (id : String) (name : String)
    (description : Option String) (active : Bool) (meta_id meta_slug : String)
    (st : St) : Except PyExc Unit × St :=
  let st := { st with trace := st.trace ++ [RemoteCall.productModify id] }
  match st.takeFault with
  | (some e, st) => (Except.error e, st)
  | (none, st) =>
    (Except.ok (),
     { st with stripe :=
        { st.stripe with
          products := updateAssoc st.stripe.products id (fun r =>
            { r with
                name := name, description := description,
                active := active, metadata_wagtail_id := meta_id,
                metadata_slug := meta_slug }) } })

/-- `stripe.Product.modify(id, active=False)` as called from
`deactivate_product`. -/
def stripeProductSetInactive (id : String) (st : St) : Except PyExc Unit × St :=
  let st := { st with trace := st.trace ++ [RemoteCall.productModify id] }
  match st.takeFault with
  | (some e, st) => (Except.error e, st)
  | (none, st) =>
    (Except.ok (),
     { st with stripe :=
        { st.stripe with
          products := updateAssoc st.stripe.products id
            (fun r => { r with active := false }) } })

/-- `stripe.Price.create(product=..., unit_amount=..., currency=...)`:
returns the new price's id. -/
def stripePriceCreate (productId : String) (unit_amount : Nat)
    (currency : String) (st : St) : Except PyExc String × St :=
  let st := { st with trace := st.trace ++ [RemoteCall.priceCreate productId unit_amount] }
  match st.takeFault with
  | (some e, st) => (Except.error e, st)
  | (none, st) =>
    let id := freshPriceId st.stripe
    (Except.ok id,
     { st with stripe :=
        { st.stripe with
          prices := st.stripe.prices ++
            [(id, { product := productId, unit_amount := unit_amount,
                    active := true, currency := currency })],
          nextId := st.stripe.nextId + 1 } })

/-- `stripe.Price.retrieve(id)`: honestly returns the stored price, raising
`InvalidRequestError` when no such price exists. -/
def stripePriceRetrieve (id : String) (st : St) : Except PyExc RemotePrice × St :=
  let st := { st with trace := st.trace ++ [RemoteCall.priceRetrieve id] }
  match st.takeFault with
  | (some e, st) => (Except.error e, st)
  | (none, st) =>
    match lookupAssoc st.stripe.prices id with
    | some rp => (Except.ok rp, st)
    | none => (Except.error (PyExc.invalidRequest ("No such price: " ++ id)), st)

/-- `stripe.Price.modify(id, active=False)` (archiving). -/
def stripePriceArchive (id : String) (st : St) : Except PyExc Unit × St :=
  let st := { st with trace := st.trace ++ [RemoteCall.priceArchive id] }
  match st.takeFault with
  | (some e, st) => (Except.error e, st)
  | (none, st) =>
    (Except.ok (),
     { st with stripe :=
        { st.stripe with
          prices := updateAssoc st.stripe.prices id
            (fun r => { r with active := false }) } })

/-! ## The `StripeSync` service (`home/stripe_sync.py`) -/

/-- `SHIPPING_COST_GROSZE = 2000` (20 PLN). -/
def SHIPPING_COST_GROSZE : Nat := 2000

/-- `SHIPPING_CURRENCY = "pln"`. -/
def SHIPPING_CURRENCY : String := "pln"

/-- The result dict returned by every `StripeSync` method: `success`, and the
optional `error`, `checkout_url` and `session_id` entries. -/
structure SyncResult where
  success : Bool
  error : Option String := none
  checkout_url : Option String := none
  session_id : Option String := none
deriving DecidableEq, Repr

/-- `StripeSync._get_stripe_api_key`: raises `ValueError` when
`STRIPE_SECRET_KEY` is absent or empty. -/
def get_stripe_api_key (settings : Settings) : Except PyExc String :=
  if settings.stripeSecretKey = "" then
    Except.error (PyExc.valueErr "STRIPE_SECRET_KEY is not configured in Django settings")
  else Except.ok settings.stripeSecretKey

/-- `StripeSync._build_absolute_url`: `None` for an empty relative URL, the
relative URL itself when `PUBLIC_URL` is unset, otherwise the base (with
trailing slashes stripped) joined to the relative URL (with a leading slash
ensured). -/
def build_absolute_url (settings : Settings) (relative_url : String) : Option String :=
  if relative_url = "" then none
  else if settings.publicUrl = "" then some relative_url
  else
    let base := String.mk (settings.publicUrl.data.reverse.dropWhile (fun c => c == '/')).reverse
    let rel := if relative_url.startsWith "/" then relative_url else "/" ++ relative_url
    some (base ++ rel)

/-- The two `except` clauses shared by the `StripeSync` methods:
a `stripe.error.StripeError` becomes `success=False` with message
`"Stripe API error: ..."`, any other exception becomes `success=False` with
message `"Unexpected error: ..."`. -/
def stripeErrorResult (e : PyExc) : SyncResult :=
  if e.isStripeError then
    { success := false, error := some ("Stripe API error: " ++ e.message) }
  else
    { success := false, error := some ("Unexpected error: " ++ e.message) }

/-- The inner `try:` of `StripeSync.create_or_update_product`'s update path
(`stripe_sync.py` lines 155–175): retrieve the current remote price,
compare its stored amount with the freshly computed one and, on a
difference, archive the old price and create the replacement, storing its
id.  Any exception escaping this block — from the retrieve, the archive or
the replacement create — reaches the caller's
`except stripe.error.InvalidRequestError` clause. -/
def price_update_try (product : Product) (current_price_grosze : Nat) (st : St) :
    Except PyExc Product × St :=
  match stripePriceRetrieve product.stripe_price_id st with
  | (Except.error e, st) => (Except.error e, st)
  | (Except.ok current_stripe_price, st) =>
    if current_stripe_price.unit_amount ≠ current_price_grosze then
      match stripePriceArchive product.stripe_price_id st with
      | (Except.error e, st) => (Except.error e, st)
      | (Except.ok _, st) =>
        match stripePriceCreate product.stripe_product_id current_price_grosze
            SHIPPING_CURRENCY st with
        | (Except.error e, st) => (Except.error e, st)
        | (Except.ok newId, st) =>
          (Except.ok { product with stripe_price_id := newId }, st)
    else (Except.ok product, st)

/-- The `try:` body of `StripeSync.create_or_update_product`, up to (not
including) the final id-writeback save.  Threads the in-memory `Product`
instance (Python mutates it in place, so it is returned also when an
exception escapes) and the world state; the `Except` value is the exception
escaping the body, if any. -/
def create_or_update_body (settings : Settings) (product : Product) (st : St) :
    Except PyExc Unit × Product × St :=
  match get_stripe_api_key settings with
  | Except.error e => (Except.error e, product, st)
  | Except.ok _ =>
    let product_name := if product.tytul ≠ "" then product.tytul else product.name
    let product_description := if product.opis ≠ "" then some product.opis else none
    let meta_id := natDigits product.pk
    let meta_slug := product.slug
    if product.stripe_product_id = "" then
      -- new product: create a Stripe Product and a Stripe Price
      let product_images : List (Option String) :=
        if product.primary_image_url ≠ "" then
          [build_absolute_url settings product.primary_image_url]
        else []
      match stripeProductCreate product_name product_description
          (product.status = ProductStatus.active) meta_id meta_slug product_images st with
      | (Except.error e, st) => (Except.error e, product, st)
      | (Except.ok prodId, st) =>
        let product := { product with stripe_product_id := prodId }
        let price_grosze := price_to_grosze product.price
        match stripePriceCreate prodId price_grosze SHIPPING_CURRENCY st with
        | (Except.error e, st) => (Except.error e, product, st)
        | (Except.ok priceId, st) =>
          (Except.ok (), { product with stripe_price_id := priceId }, st)
    else
      -- existing product: update, then compare/replace the price
      match stripeProductUpdate product.stripe_product_id product_name
          product_description (product.status = ProductStatus.active) meta_id meta_slug st with
      | (Except.error e, st) => (Except.error e, product, st)
      | (Except.ok _, st) =>
        let current_price_grosze := price_to_grosze product.price
        match price_update_try product current_price_grosze st with
        | (Except.ok product, st) => (Except.ok (), product, st)
        | (Except.error e, st) =>
          -- `except stripe.error.InvalidRequestError` (wrapping the whole
          -- retrieve/compare/archive/create block): create a new price anyway
          match e with
          | PyExc.invalidRequest _ =>
            match stripePriceCreate product.stripe_product_id current_price_grosze
                SHIPPING_CURRENCY st with
            | (Except.error e2, st) => (Except.error e2, product, st)
            | (Except.ok newId, st) =>
              (Except.ok (), { product with stripe_price_id := newId }, st)
          | _ => (Except.error e, product, st)

/-- `StripeSync.create_or_update_product`.  `product` is the in-memory
instance, `row` the persisted record; the final
`product.save(update_fields=['stripe_product_id', 'stripe_price_id'])` (with
`_skip_stripe_sync` set) copies exactly those two fields to the row and may
itself raise, which like every exception is converted to a `success=False`
result by the closing `except` clauses.  Never raises. -/
def create_or_update_product (settings : Settings) (product row : Product) (st : St) :
    SyncResult × Product × Product × St :=
  match create_or_update_body settings product st with
  | (Except.error e, product, st) => (stripeErrorResult e, product, row, st)
  | (Except.ok _, product, st) =>
    let product := { product with skip_stripe_sync := true }
    match st.takeDbFault with
    | (some msg, st) =>
      ({ success := false, error := some ("Unexpected error: " ++ msg) }, product, row, st)
    | (none, st) =>
      let row := { row with
                     stripe_product_id := product.stripe_product_id,
                     stripe_price_id := product.stripe_price_id }
      ({ success := true }, product, row, st)

/-- `StripeSync.deactivate_product`: fails fast (no remote call) without a
`stripe_product_id`, otherwise sets the remote Product inactive, with the
standard error wrapping. -/
def deactivate_product (settings : Settings) (product : Product) (st : St) :
    SyncResult × St :=
  if product.stripe_product_id = "" then
    ({ success := false, error := some "No stripe_product_id" }, st)
  else
    match get_stripe_api_key settings with
    | Except.error e => (stripeErrorResult e, st)
    | Except.ok _ =>
      match stripeProductSetInactive product.stripe_product_id st with
      | (Except.error e, st) => (stripeErrorResult e, st)
      | (Except.ok _, st) => ({ success := true }, st)

/-- `StripeSync.mark_as_sold`: sets `status='sold'`, `sold_at=now`,
`active=False` on the instance, persists exactly those three fields, then
best-effort deactivates the remote product (the deactivation result is only
logged).  The save may raise (converted to a `success=False` result); the
deactivation outcome never affects the result. -/
def mark_as_sold (settings : Settings) (now : Nat) (product row : Product) (st : St) :
    SyncResult × Product × Product × St :=
  let product := { product with
                     status := ProductStatus.sold,
                     sold_at := some now,
                     active := false }
  match st.takeDbFault with
  | (some msg, st) =>
    ({ success := false, error := some ("Unexpected error: " ++ msg) }, product, row, st)
  | (none, st) =>
    let row := { row with
                   status := product.status,
                   sold_at := product.sold_at,
                   active := product.active }
    if product.stripe_product_id ≠ "" then
      match deactivate_product settings product st with
      | (_, st) => ({ success := true }, product, row, st)
    else
      ({ success := true }, product, row, st)

/-- The `{CHECKOUT_SESSION_ID}` placeholder Stripe substitutes into the
success URL. -/
def CHECKOUT_SESSION_PLACEHOLDER : String := "\x7bCHECKOUT_SESSION_ID\x7d"

/-- Python's `sub in s` substring test. -/
def containsSubstr (s sub : String) : Bool := (s.splitOn sub).length > 1

/-- The parameters of `stripe.checkout.Session.create` as assembled by
`create_checkout_session`: one line item for the stored price, the fixed
shipping option, the product-id metadata and the optional e-mail fields. -/
structure CheckoutSessionParams where
  line_item_price : String := ""
  quantity : Nat := 1
  success_url : String := ""
  cancel_url : String := ""
  metadata_product_id : String := ""
  shipping_amount : Nat := SHIPPING_COST_GROSZE
  shipping_currency : String := SHIPPING_CURRENCY
  customer_email : Option String := none
  receipt_email : Option String := none
deriving DecidableEq, Repr

/-- `stripe.checkout.Session.create(**session_params)`: returns
`(session.id, session.url)`. -/
def stripeSessionCreate (params : CheckoutSessionParams) (st : St) :
    Except PyExc (String × String) × St :=
  let st := { st with trace := st.trace ++ [RemoteCall.sessionCreate params.line_item_price] }
  match st.takeFault with
  | (some e, st) => (Except.error e, st)
  | (none, st) =>
    let id := freshSessionId st.stripe
    ((Except.ok (id, "https://checkout.stripe.com/c/pay/" ++ id)),
     { st with stripe := { st.stripe with nextId := st.stripe.nextId + 1 } })

/-- `StripeSync.create_checkout_session`: guards (`is_buyable`,
`stripe_price_id`) return structured failures before any remote work; then
the success URL gets the session-id placeholder appended as a query
parameter unless already present, and the session is created with one
quantity-1 line item, the fixed shipping option and correlating metadata. -/
def create_checkout_session (settings : Settings) (product : Product)
    (success_url cancel_url : String) (customer_email : Option String) (st : St) :
    SyncResult × St :=
  if ¬ product.is_buyable then
    ({ success := false, error := some "Product is not buyable" }, st)
  else if product.stripe_price_id = "" then
    ({ success := false, error := some "Product has no stripe_price_id" }, st)
  else
    match get_stripe_api_key settings with
    | Except.error e => (stripeErrorResult e, st)
    | Except.ok _ =>
      let success_url :=
        if ¬ containsSubstr success_url CHECKOUT_SESSION_PLACEHOLDER then
          if containsSubstr success_url "?" then
            success_url ++ "&session_id=" ++ CHECKOUT_SESSION_PLACEHOLDER
          else
            success_url ++ "?session_id=" ++ CHECKOUT_SESSION_PLACEHOLDER
        else success_url
      let params : CheckoutSessionParams :=
        { line_item_price := product.stripe_price_id,
          quantity := 1,
          success_url := success_url,
          cancel_url := cancel_url,
          metadata_product_id := natDigits product.pk,
          shipping_amount := SHIPPING_COST_GROSZE,
          shipping_currency := SHIPPING_CURRENCY,
          customer_email := customer_email,
          receipt_email := customer_email }
      match stripeSessionCreate params st with
      | (Except.error e, st) => (stripeErrorResult e, st)
      | (Except.ok (sid, url), st) =>
        ({ success := true, checkout_url := some url, session_id := some sid }, st)

/-! ## The signal dispatcher (`home/signals.py`) -/

/-- Which `StripeSync` call the post-save handler makes. -/
inductive SyncAction where
  | skip
  | deactivate
  | createOrUpdate
deriving DecidableEq, Repr

/-- `track_product_status_change` (the `pre_save` receiver).  The
`_old_status` attribute is modelled by `Option (Option ProductStatus)`:
`none` means the attribute was never set (reading it raises
`AttributeError`), `some s` means it was set to `s`.  The receiver only
touches the attribute when `instance.pk` is set: it stores the stored row's
status, or `None` when the row does not exist. -/
def track_product_status_change (pk_set : Bool) (row_status : Option ProductStatus)
    (old_attr : Option (Option ProductStatus)) : Option (Option ProductStatus) :=
  if pk_set then
    match row_status with
    | some s => some (some s)
    | none => some none
  else old_attr

/-- `sync_product_to_stripe` (the `post_save` receiver): skips on the bypass
flag or an unconfigured `STRIPE_SECRET_KEY`; otherwise, inside a blanket
`try/except`, reads `instance._old_status` (an `AttributeError` here is
swallowed and ends the handler with no action), dispatches `deactivate` on a
transition into INACTIVE, and `create_or_update_product` whenever the
current status is ACTIVE. -/
def sync_product_to_stripe (settings : Settings) (skip_stripe_sync : Bool)
    (current_status : ProductStatus)
    (old_attr : Option (Option ProductStatus)) : SyncAction :=
  if skip_stripe_sync then SyncAction.skip
  else if settings.stripeSecretKey = "" then SyncAction.skip
  else
    match old_attr with
    | none => SyncAction.skip
    | some old_status =>
      if current_status = ProductStatus.inactive ∧ old_status ≠ some ProductStatus.inactive then
        SyncAction.deactivate
      else if current_status = ProductStatus.active then
        SyncAction.createOrUpdate
      else SyncAction.skip

/-- The dispatcher policy across one `save()`: the `pre_save` receiver runs
on the pre-save instance (`pk_set` says whether `instance.pk` was set before
the save, `row_status` is the stored row's status if the row exists,
`initial_attr` the `_old_status` attribute already present on the instance,
if any), then the `post_save` receiver runs with the post-save status. -/
def dispatch_after_save (settings : Settings) (skip_stripe_sync : Bool)
    (pk_set : Bool) (row_status : Option ProductStatus)
    (initial_attr : Option (Option ProductStatus))
    (post_status : ProductStatus) : SyncAction :=
  sync_product_to_stripe settings skip_stripe_sync post_status
    (track_product_status_change pk_set row_status initial_attr)

/-! ## Slug assignment (`Product.save` in `home/models.py`)

`Product.save` auto-generates a slug from `name` via Django's
`django.utils.text.slugify` and resolves collisions with an incrementing
numeric suffix. -/

/-- The NFKD-decompose-then-ASCII-encode-with-ignore step of Django's
`slugify` for the character repertoire this catalog uses (ASCII and Polish
letters).  ASCII characters pass through; Polish diacritics decompose to
their base letter plus a dropped combining mark — except `ł`/`Ł`, which have
no NFKD decomposition and are dropped entirely; other characters without an
ASCII decomposition are likewise dropped by `.encode('ascii', 'ignore')`. -/
def nfkd_ascii (c : Char) : List Char :=
  if c.toNat < 128 then [c]
  else if c = 'ą' then ['a'] else if c = 'Ą' then ['A']
  else if c = 'ć' then ['c'] else if c = 'Ć' then ['C']
  else if c = 'ę' then ['e'] else if c = 'Ę' then ['E']
  else if c = 'ń' then ['n'] else if c = 'Ń' then ['N']
  else if c = 'ó' then ['o'] else if c = 'Ó' then ['O']
  else if c = 'ś' then ['s'] else if c = 'Ś' then ['S']
  else if c = 'ź' then ['z'] else if c = 'Ź' then ['Z']
  else if c = 'ż' then ['z'] else if c = 'Ż' then ['Z']
  else []

/-- Is the character kept by `re.sub(r"[^\w\s-]", "", ...)`? -/
def slugKeep (c : Char) : Bool := c.isAlphanum || c == '_' || c == '-' || c.isWhitespace

/-- Is the character collapsed by `re.sub(r"[-\s]+", "-", ...)`? -/
def slugSep (c : Char) : Bool := c == '-' || c.isWhitespace

/-- Helper for `collapseSep`: the flag records whether the previous
character belonged to a separator run (already emitted as one hyphen). -/
def collapseSepGo : Bool → List Char → List Char
  | _, [] => []
  | inRun, c :: rest =>
    if slugSep c then
      if inRun then collapseSepGo true rest
      else '-' :: collapseSepGo true rest
    else c :: collapseSepGo false rest

/-- `re.sub(r"[-\s]+", "-", ...)`: collapse every run of hyphens and
whitespace to a single hyphen. -/
def collapseSep (l : List Char) : List Char := collapseSepGo false l

/-- `.strip("-_")`. -/
def stripDashUnderscore (l : List Char) : List Char :=
  let p := fun c => c == '-' || c == '_'
  ((l.dropWhile p).reverse.dropWhile p).reverse

/-- Django's `django.utils.text.slugify(value)` (with `allow_unicode=False`):
NFKD-normalize and ASCII-encode ignoring errors, lowercase, delete characters
other than word characters, whitespace and hyphens, collapse hyphen/space
runs to single hyphens, and strip leading/trailing hyphens/underscores. -/
def slugify (s : String) : String :=
  let ascii := s.data.flatMap nfkd_ascii
  let lowered := ascii.map Char.toLower
  let kept := lowered.filter slugKeep
  String.mk (stripDashUnderscore (collapseSep kept))

/-- The `k`-th slug candidate tried by `Product.save`: the base slug itself,
then `f"{base_slug}-{counter}"` for `counter = 1, 2, ...`. -/
def slugCandidate (base : String) (k : Nat) : String :=
  if k = 0 then base else base ++ "-" ++ natDigits k

/-- The `while queryset.exists()` loop of `Product.save`, searching
candidates `counter, counter+1, ...`; `existing` is the set of slugs of the
other products.  The loop always terminates in the source because only
finitely many products exist; here the spare `fuel` bounds the search and is
chosen large enough to be unreachable. -/
def findFreeSlug (existing : List String) (base : String) : Nat → Nat → String
  | counter, 0 => slugCandidate base counter
  | counter, fuel + 1 =>
    if slugCandidate base counter ∈ existing then
      findFreeSlug existing base (counter + 1) fuel
    else slugCandidate base counter

/-- The slug-assignment logic of `Product.save`: when no slug is supplied,
slugify the name and append `-1`, `-2`, ... until the slug collides with no
other product's slug. -/
def generate_slug (existing : List String) (name : String) : String :=
  findFreeSlug existing (slugify name) 0 (existing.length + 1)

/-- `Product.save` (slug part): keeps a supplied slug, otherwise assigns
`generate_slug`. -/
def product_save_slug (existing : List String) (p : Product) : Product :=
  if p.slug = "" then { p with slug := generate_slug existing p.name } else p

/-! ### Properties of the slug search -/

theorem slugCandidate_injective (base : String) :
    Function.Injective (slugCandidate base) := by
  intro i j h
  unfold slugCandidate at h
  have hlen1 : (natDigits i).length = (natDigitsL i).length := rfl
  have hlen2 : (natDigits j).length = (natDigitsL j).length := rfl
  by_cases hi : i = 0 <;> by_cases hj : j = 0
  · omega
  · exfalso
    rw [if_pos hi, if_neg hj] at h
    have hlen := congrArg String.length h
    rw [String.length_append, String.length_append] at hlen
    have hpos : 0 < (natDigitsL j).length :=
      List.length_pos.mpr (natDigitsL_ne_nil j)
    have hdash : ("-" : String).length = 1 := rfl
    omega
  · exfalso
    rw [if_neg hi, if_pos hj] at h
    have hlen := congrArg String.length h
    rw [String.length_append, String.length_append] at hlen
    have hpos : 0 < (natDigitsL i).length :=
      List.length_pos.mpr (natDigitsL_ne_nil i)
    have hdash : ("-" : String).length = 1 := rfl
    omega
  · rw [if_neg hi, if_neg hj] at h
    have hd : (base ++ "-").data ++ (natDigits i).data =
        (base ++ "-").data ++ (natDigits j).data := by
      have hdata := congrArg String.data h
      simpa [String.data_append] using hdata
    have hdd : (natDigits i).data = (natDigits j).data := List.append_cancel_left hd
    exact natDigits_injective (by
      show natDigits i = natDigits j
      cases hni : natDigits i
      cases hnj : natDigits j
      rw [hni, hnj] at hdd
      exact congrArg String.mk hdd)

theorem exists_free_slugCandidate (existing : List String) (base : String) :
    ∃ k, k ≤ existing.length ∧ slugCandidate base k ∉ existing := by
  by_contra hcon
  push_neg at hcon
  have hsub : (List.range (existing.length + 1)).map (slugCandidate base) ⊆ existing := by
    intro x hx
    rcases List.mem_map.mp hx with ⟨k, hk, rfl⟩
    exact hcon k (by have := List.mem_range.mp hk; omega)
  have hnd2 : ((List.range (existing.length + 1)).map (slugCandidate base)).Nodup :=
    List.Nodup.map (slugCandidate_injective base) (List.nodup_range _)
  have hle := (List.subperm_of_subset hnd2 hsub).length_le
  simp only [List.length_map, List.length_range] at hle
  omega

theorem findFreeSlug_spec (existing : List String) (base : String) :
    ∀ (fuel counter : Nat),
    (∃ k, counter ≤ k ∧ k ≤ counter + fuel ∧ slugCandidate base k ∉ existing) →
    findFreeSlug existing base counter fuel ∉ existing ∧
    ∃ k, counter ≤ k ∧ findFreeSlug existing base counter fuel = slugCandidate base k ∧
      ∀ j, counter ≤ j → j < k → slugCandidate base j ∈ existing := by
  intro fuel
  induction fuel with
  | zero =>
    rintro counter ⟨k, hk1, hk2, hk3⟩
    have hkc : k = counter := by omega
    subst hkc
    exact ⟨hk3, k, Nat.le_refl k, rfl, fun j h1 h2 => absurd h2 (by omega)⟩
  | succ fuel ih =>
    rintro counter ⟨k, hk1, hk2, hk3⟩
    by_cases hmem : slugCandidate base counter ∈ existing
    · have hkc : k ≠ counter := by
        intro hkc
        rw [hkc] at hk3
        exact hk3 hmem
      have hrec := ih (counter + 1) ⟨k, by omega, by omega, hk3⟩
      obtain ⟨hfree, k2, hk21, heq, hall⟩ := hrec
      have hstep : findFreeSlug existing base counter (fuel + 1) =
          findFreeSlug existing base (counter + 1) fuel := by
        show (if slugCandidate base counter ∈ existing then
          findFreeSlug existing base (counter + 1) fuel
          else slugCandidate base counter) = _
        rw [if_pos hmem]
      rw [hstep]
      refine ⟨hfree, k2, by omega, heq, ?_⟩
      intro j hj1 hj2
      rcases Nat.eq_or_lt_of_le hj1 with hj | hj
      · rw [← hj]
        exact hmem
      · exact hall j hj hj2
    · have hstep : findFreeSlug existing base counter (fuel + 1) =
          slugCandidate base counter := by
        show (if slugCandidate base counter ∈ existing then
          findFreeSlug existing base (counter + 1) fuel
          else slugCandidate base counter) = _
        rw [if_neg hmem]
      rw [hstep]
      exact ⟨hmem, counter, Nat.le_refl counter, rfl,
        fun j h1 h2 => absurd h2 (by omega)⟩

/-! ## The webhook reconciler (`home/api/webhooks.py`) -/

/-- `event.type` of a Stripe webhook event. -/
inductive EventType where
  | checkout_session_completed
  | checkout_session_expired
  | other (name : String)
deriving DecidableEq, Repr

/-- `event.data.object` for the checkout-session events: the session id and
the `product_id` entry of the session metadata, if present. -/
structure SessionObject where
  id : String := ""
  metadata_product_id : Option String := none
deriving DecidableEq, Repr

/-- A verified Stripe webhook event. -/
structure StripeEvent where
  type : EventType
  session : SessionObject := {}
deriving DecidableEq, Repr

/-- The outcome of `stripe.Webhook.construct_event(payload, sig, secret)`:
a verified event, a `ValueError` from payload parsing, a
`SignatureVerificationError`, or any other exception.  The Stripe library is
an external collaborator, so its outcome is an input of the handler; an
invalid signature yields `sig_error` whatever the payload contains. -/
inductive ConstructOutcome where
  | ok (event : StripeEvent)
  | parse_error (msg : String)
  | sig_error (msg : String)
  | other_error (msg : String)
deriving DecidableEq, Repr

/-- The outcome of `Product.objects.get(pk=...)`: the matching in-memory
instance and persisted row, `Product.DoesNotExist`, or any other exception
raised while processing the branch. -/
inductive DbLookup where
  | found (product row : Product)
  | does_not_exist
  | db_error (msg : String)
deriving DecidableEq, Repr

/-- Start code points of the Unicode decimal-digit runs (category Nd, the
characters `unicodedata.decimal` accepts): every decimal digit lies in one
of these runs of ten consecutive code points, its value being the offset
from the run start.  This is the table behind CPython's
`Py_UNICODE_TODECIMAL`. -/
def pyDecimalDigitRunStarts : List Nat :=
  [48, 1632, 1776, 1984, 2406, 2534, 2662, 2790, 2918, 3046, 3174, 3302,
   3430, 3558, 3664, 3792, 3872, 4160, 4240, 6112, 6160, 6470, 6608, 6784,
   6800, 6992, 7088, 7232, 7248, 42528, 43216, 43264, 43472, 43504, 43600,
   44016, 65296, 66720, 68912, 69734, 69872, 69942, 70096, 70384, 70736,
   70864, 71248, 71360, 71472, 71904, 72016, 72784, 73040, 73120, 92768,
   92864, 93008, 120782, 120792, 120802, 120812, 120822, 123200, 123632,
   125264, 130032]

/-- CPython's `Py_UNICODE_TODECIMAL`: the value of a Unicode decimal digit,
`none` for any other character. -/
def pyUnicodeToDecimal (c : Char) : Option Nat :=
  match pyDecimalDigitRunStarts.find? (fun s => s ≤ c.toNat && c.toNat < s + 10) with
  | some s => some (c.toNat - s)
  | none => none

/-- CPython's `Py_UNICODE_ISSPACE` (single-character `str.isspace`): ASCII
whitespace and file/group/record/unit separators, NEL, and the Unicode
space-separator/line-separator/paragraph-separator characters. -/
def pyIsSpace (c : Char) : Bool :=
  [9, 10, 11, 12, 13, 28, 29, 30, 31, 32, 133, 160, 5760, 8192, 8193, 8194,
   8195, 8196, 8197, 8198, 8199, 8200, 8201, 8202, 8232, 8233, 8239, 8287,
   12288].contains c.toNat

/-- One character of CPython's
`_PyUnicode_TransformDecimalAndSpaceToASCII`, which `int(str)` applies
before parsing: characters below 127 pass through unchanged; otherwise
whitespace becomes a space and a Unicode decimal digit becomes the
corresponding ASCII digit; everything else becomes `'?'` (which the
subsequent parse rejects). -/
def pyTransformChar (c : Char) : Char :=
  if c.toNat < 127 then c
  else if pyIsSpace c then ' '
  else match pyUnicodeToDecimal c with
    | some v => Char.ofNat (48 + v)
    | none => '?'

/-- The C-level `Py_ISSPACE` used by `PyLong_FromString` when skipping the
whitespace around the number: ASCII space, tab, line feed, vertical tab,
form feed and carriage return. -/
def pyCSpace (c : Char) : Bool :=
  c == ' ' || c == '\t' || c == '\n' || c.toNat == 11 || c.toNat == 12 || c == '\r'

/-- The digit run of CPython's base-10 integer parse, after the ASCII
transform: ASCII digits with single underscores allowed only between
digits.  Returns the accumulated value and the unconsumed rest, or `none`
on a misplaced underscore.  The flag records a just-consumed underscore. -/
def pyIntDigitsGo : Bool → Nat → List Char → Option (Nat × List Char)
  | afterUnderscore, acc, [] =>
    if afterUnderscore then none else some (acc, [])
  | afterUnderscore, acc, c :: rest =>
    if c.isDigit then pyIntDigitsGo false (acc * 10 + (c.toNat - 48)) rest
    else if c == '_' then
      if afterUnderscore then none else pyIntDigitsGo true acc rest
    else if afterUnderscore then none
    else some (acc, c :: rest)

/-- Python `int(s)` on a string: the decimal-and-space-to-ASCII transform
(Unicode decimal digits and Unicode whitespace included), then the base-10
parse — optional surrounding whitespace, an optional sign, one or more
digits with single underscore separators between digits.  Anything else
raises `ValueError`, modelled as `none`. -/
def pyInt (s : String) : Option Int :=
  let t := (s.data.map pyTransformChar).dropWhile pyCSpace
  match t with
  | [] => none
  | c :: rest =>
    let signed : Bool × List Char :=
      if c == '-' then (true, rest)
      else if c == '+' then (false, rest) else (false, c :: rest)
    match signed.2 with
    | [] => none
    | d :: rest2 =>
      if d.isDigit then
        match pyIntDigitsGo false (d.toNat - 48) rest2 with
        | none => none
        | some (n, rest3) =>
          if rest3.all pyCSpace then
            some (if signed.1 then -(n : Int) else (n : Int))
          else none
      else none

/-- A `JsonResponse` body: `{'status': ...}` and/or `{'error': ...}`. -/
structure JsonBody where
  status : Option String := none
  error : Option String := none
deriving DecidableEq, Repr

/-- An HTTP response of the webhook view. -/
structure HttpResponse where
  code : Nat
  body : JsonBody
deriving DecidableEq, Repr

/-- The `stripe_webhook` view.  `sig_header` is the `Stripe-Signature`
header; `construct` the outcome of the (external) signature verification and
payload parsing; `db` the ORM lookup; `now` the current time for
`mark_as_sold`.  Mirrors the handler's control flow: missing signature →
400; unconfigured `STRIPE_WEBHOOK_SECRET` → 500; `ValueError` → 400;
`SignatureVerificationError` → 400; any other construct exception → 500; on
`checkout.session.completed`, missing `product_id` → 400, non-numeric →
400 (`except ValueError`), unknown product → 404 (`except DoesNotExist`),
any other exception in the branch → 500, and otherwise `_skip_stripe_sync`
is set, `mark_as_sold` runs, its result is only logged, and the handler
returns 200 `{'status': 'success'}`; other event types → 200. -/
def stripe_webhook (settings : Settings) (sig_header : Option String)
    (construct : ConstructOutcome) (db : Int → DbLookup) (now : Nat) (st : St) :
    HttpResponse × St :=
  match sig_header with
  | none => ({ code := 400, body := { error := some "No signature" } }, st)
  | some _ =>
    if settings.stripeWebhookSecret = "" then
      ({ code := 500, body := { error := some "Webhook not configured" } }, st)
    else
      match construct with
      | ConstructOutcome.parse_error _ =>
        ({ code := 400, body := { error := some "Invalid payload" } }, st)
      | ConstructOutcome.sig_error _ =>
        ({ code := 400, body := { error := some "Invalid signature" } }, st)
      | ConstructOutcome.other_error _ =>
        ({ code := 500, body := { error := some "Unexpected error" } }, st)
      | ConstructOutcome.ok event =>
        match event.type with
        | EventType.checkout_session_completed =>
          match event.session.metadata_product_id with
          | none =>
            ({ code := 400, body := { error := some "No product_id in metadata" } }, st)
          | some pid_str =>
            match pyInt pid_str with
            | none =>
              ({ code := 400, body := { error := some "Invalid product_id" } }, st)
            | some pid =>
              match db pid with
              | DbLookup.does_not_exist =>
                ({ code := 404, body := { error := some "Product not found" } }, st)
              | DbLookup.db_error _ =>
                ({ code := 500, body := { error := some "Processing error" } }, st)
              | DbLookup.found product row =>
                let product := { product with skip_stripe_sync := true }
                match mark_as_sold settings now product row st with
                | (_, _, _, st) =>
                  ({ code := 200, body := { status := some "success" } }, st)
        | EventType.checkout_session_expired =>
          ({ code := 200, body := { status := some "success" } }, st)
        | EventType.other _ =>
          ({ code := 200, body := { status := some "success" } }, st)

/-! ## Claims -/

/-- Counterexample to claim C7 as stated: Django's `slugify` drops the
letter `ł` entirely (U+0142 has no NFKD decomposition, so the ASCII encode
step discards it), so a product named "Złoty Pierścionek" with no slug
supplied gets the slug "zoty-pierscionek", not "zloty-pierscionek". -/
theorem C7_counterexample :
    slugify "Złoty Pierścionek" = "zoty-pierscionek" ∧
    (product_save_slug [] { name := "Złoty Pierścionek" }).slug = "zoty-pierscionek" ∧
    "zoty-pierscionek" ≠ "zloty-pierscionek" := by
  refine ⟨by decide, by decide, by decide⟩

/-- Claim C7 as amended: creating two products named "Złoty Pierścionek"
(no slug supplied) yields the slugs "zoty-pierscionek" and
"zoty-pierscionek-1" (the claimed general mechanism is right; only the
expected transliteration of `ł` was wrong).  In general the assigned slug
never collides with an existing product's slug, and it is the base slug
with the first free numeric suffix: either the base itself, or `base-k`
with every earlier candidate (the base and `-1` … `-(k-1)`) taken. -/
theorem C7_slug_collision_suffix :
    ((product_save_slug [] { name := "Złoty Pierścionek" }).slug = "zoty-pierscionek" ∧
     (product_save_slug ["zoty-pierscionek"] { name := "Złoty Pierścionek" }).slug =
       "zoty-pierscionek-1") ∧
    (∀ (existing : List String) (name : String),
      generate_slug existing name ∉ existing ∧
      ∃ k, generate_slug existing name = slugCandidate (slugify name) k ∧
        ∀ j, j < k → slugCandidate (slugify name) j ∈ existing) := by
  constructor
  · exact ⟨by decide, by decide⟩
  · intro existing name
    obtain ⟨k, hk, hfree⟩ := exists_free_slugCandidate existing (slugify name)
    have hspec := findFreeSlug_spec existing (slugify name) (existing.length + 1) 0
      ⟨k, Nat.zero_le k, by omega, hfree⟩
    obtain ⟨hnotmem, k2, _, heq, hall⟩ := hspec
    exact ⟨hnotmem, k2, heq, fun j hj => hall j (Nat.zero_le j) hj⟩

/-- Claim C9: there is a valid two-decimal-place product price (19.99 PLN,
i.e. 1999 grosze) for which `_price_to_grosze` returns an amount strictly
below 100 times the exact decimal price — one grosz short — because the
conversion multiplies a binary floating-point approximation by 100 and
truncates. -/
theorem C9_price_to_grosze_truncates :
    price_to_grosze 1999 < 1999 ∧ price_to_grosze 1999 = 1999 - 1 := by
  constructor <;> decide

/-- Claim C8: for every product that is not buyable (status ≠ ACTIVE, or no
remote price id), `create_checkout_session` returns a structured failure —
`success=False` with a descriptive error — without raising, and leaves the
world state (in particular the remote-call trace) untouched: no call to the
remote provider is made. -/
theorem C8_checkout_non_buyable_no_remote_call (settings : Settings) (p : Product)
    (success_url cancel_url : String) (email : Option String) (st : St)
    (h : p.status ≠ ProductStatus.active ∨ p.stripe_price_id = "") :
    (create_checkout_session settings p success_url cancel_url email st).1.success = false ∧
    ((create_checkout_session settings p success_url cancel_url email st).1.error).isSome = true ∧
    (create_checkout_session settings p success_url cancel_url email st).2 = st := by
  have hb : p.is_buyable = false := by
    unfold Product.is_buyable
    rcases h with h | h
    · simp [h]
    · simp [h]
  unfold create_checkout_session
  simp [hb]

/-- Witness for C8: a SOLD product is rejected without any state change. -/
theorem C8_checkout_non_buyable_no_remote_call_witness :
    (create_checkout_session {} { status := ProductStatus.sold } "s" "c" none {}).1.success = false ∧
    ((create_checkout_session {} { status := ProductStatus.sold } "s" "c" none {}).1.error).isSome = true ∧
    (create_checkout_session {} { status := ProductStatus.sold } "s" "c" none {}).2 = {} :=
  C8_checkout_non_buyable_no_remote_call {} { status := ProductStatus.sold } "s" "c" none {}
    (Or.inl (by decide))

/-- Claim C5: whenever `mark_as_sold` returns success, the product instance
has status SOLD, a non-null `sold_at` (the current time) and `active=False`;
the persisted row is the prior row with exactly those three fields updated;
and the result is the plain `success=True` dict — in particular the remote
deactivation outcome (the fault schedule is arbitrary here) never turns the
result into a failure. -/
theorem C5_mark_as_sold (settings : Settings) (now : Nat) (product row : Product) (st : St)
    (hd : (St.takeDbFault st).1 = none) :
    (mark_as_sold settings now product row st).1 = { success := true } ∧
    (mark_as_sold settings now product row st).2.1.status = ProductStatus.sold ∧
    (mark_as_sold settings now product row st).2.1.sold_at = some now ∧
    (mark_as_sold settings now product row st).2.1.active = false ∧
    (mark_as_sold settings now product row st).2.2.1 =
      { row with status := ProductStatus.sold, sold_at := some now, active := false } := by
  obtain ⟨stripe, faults, dbf, trace⟩ := st
  rcases dbf with _ | ⟨f, rest⟩
  · by_cases hid : product.stripe_product_id = "" <;>
      simp [mark_as_sold, St.takeDbFault, hid]
  · cases f with
    | some msg => simp [St.takeDbFault] at hd
    | none =>
      by_cases hid : product.stripe_product_id = "" <;>
        simp [mark_as_sold, St.takeDbFault, hid]

/-- Witness for C5: a product with a remote id is marked sold while the
remote deactivation fails (injected `StripeError`); the operation still
succeeds and persists exactly the three fields. -/
theorem C5_mark_as_sold_witness :
    (mark_as_sold { stripeSecretKey := "sk_test" } 1234
      { pk := 5, stripe_product_id := "prod_0" } { pk := 5, stripe_product_id := "prod_0" }
      { faults := [some (PyExc.stripeErr "connection error")] }).1 = { success := true } ∧
    (mark_as_sold { stripeSecretKey := "sk_test" } 1234
      { pk := 5, stripe_product_id := "prod_0" } { pk := 5, stripe_product_id := "prod_0" }
      { faults := [some (PyExc.stripeErr "connection error")] }).2.1.status = ProductStatus.sold ∧
    (mark_as_sold { stripeSecretKey := "sk_test" } 1234
      { pk := 5, stripe_product_id := "prod_0" } { pk := 5, stripe_product_id := "prod_0" }
      { faults := [some (PyExc.stripeErr "connection error")] }).2.1.sold_at = some 1234 ∧
    (mark_as_sold { stripeSecretKey := "sk_test" } 1234
      { pk := 5, stripe_product_id := "prod_0" } { pk := 5, stripe_product_id := "prod_0" }
      { faults := [some (PyExc.stripeErr "connection error")] }).2.1.active = false ∧
    (mark_as_sold { stripeSecretKey := "sk_test" } 1234
      { pk := 5, stripe_product_id := "prod_0" } { pk := 5, stripe_product_id := "prod_0" }
      { faults := [some (PyExc.stripeErr "connection error")] }).2.2.1 =
      { pk := 5, stripe_product_id := "prod_0", status := ProductStatus.sold,
        sold_at := some 1234, active := false } :=
  C5_mark_as_sold { stripeSecretKey := "sk_test" } 1234
    { pk := 5, stripe_product_id := "prod_0" } { pk := 5, stripe_product_id := "prod_0" }
    { faults := [some (PyExc.stripeErr "connection error")] } (by decide)

/-- Claim C1 (code bug): for a newly created ACTIVE product — `instance.pk`
unset at `pre_save`, so `track_product_status_change` never sets
`_old_status` — the post-save dispatcher hits the unset attribute, the
blanket `except` swallows the `AttributeError`, and `create_or_update` is
NOT called (first conjunct), even with the bypass flag unset and the secret
key configured.  For saves of existing records (`pk` set at `pre_save`) the
claimed dispatch to `create_or_update` does hold (second conjunct). -/
theorem C1_new_record_active_not_synced :
    (dispatch_after_save { stripeSecretKey := "sk_test" } false false none none
        ProductStatus.active = SyncAction.skip) ∧
    (∀ (row_status : Option ProductStatus) (attr : Option (Option ProductStatus)),
      dispatch_after_save { stripeSecretKey := "sk_test" } false true row_status attr
        ProductStatus.active = SyncAction.createOrUpdate) := by
  constructor
  · decide
  · intro row_status attr
    rcases row_status with _ | s
    · rfl
    · cases s <;> rfl

/-- Claim C10: on a `checkout.session.completed` event with a valid
signature, a parsable `product_id` and a matching product, when
`mark_as_sold` returns a failure result (here: the local save raises, so
`success=False` without an exception escaping), the webhook handler still
responds 200 with body `{'status': 'success'}`. -/
theorem C10_webhook_200_despite_mark_as_sold_failure (settings : Settings)
    (sig sid pid_str msg : String) (pid : Int) (db : Int → DbLookup)
    (p row : Product) (now : Nat) (st : St) (rest : List (Option String))
    (hsecret : settings.stripeWebhookSecret ≠ "")
    (hpid : pyInt pid_str = some pid)
    (hdb : db pid = DbLookup.found p row)
    (hfail : st.dbFaults = some msg :: rest) :
    (mark_as_sold settings now { p with skip_stripe_sync := true } row st).1.success = false ∧
    (stripe_webhook settings (some sig)
        (ConstructOutcome.ok
          { type := EventType.checkout_session_completed,
            session := { id := sid, metadata_product_id := some pid_str } })
        db now st).1 = { code := 200, body := { status := some "success" } } := by
  constructor
  · unfold mark_as_sold St.takeDbFault
    rw [hfail]
  · unfold stripe_webhook
    simp only [hsecret, if_neg, hpid, hdb]
    rcases mark_as_sold settings now { p with skip_stripe_sync := true } row st with ⟨r, a, b, st4⟩
    simp

/-- Counterexample to claim C2 as stated: a remote-provider call can raise a
provider-specific error and yet `create_or_update_product` returns
`success=True`.  First scenario: the fault schedule makes the second remote
call — the price lookup (`stripe.Price.retrieve`, see the trace) — raise
`InvalidRequestError`, which is a `StripeError`; the
`except stripe.error.InvalidRequestError` handler creates a replacement
price and the method succeeds.  Second scenario: with a changed amount
(stored 1998, computed 3000), the ARCHIVE call (`stripe.Price.modify`)
raises `InvalidRequestError`; the same handler — whose `try` wraps the
retrieve, the archive and the replacement create — again creates a
replacement and the method succeeds. -/
theorem C2_counterexample :
    ((create_or_update_product { stripeSecretKey := "sk_test" }
        { pk := 7, name := "Ring", price := 2000, status := ProductStatus.active,
          stripe_product_id := "prod_0", stripe_price_id := "price_0" }
        {}
        { stripe := { products := [("prod_0", {})],
                      prices := [("price_0", { product := "prod_0", unit_amount := 2000,
                                               active := true, currency := "pln" })],
                      nextId := 1 },
          faults := [none, some (PyExc.invalidRequest "No such price: price_0")] }).1
      = { success := true }) ∧
    ((create_or_update_product { stripeSecretKey := "sk_test" }
        { pk := 7, name := "Ring", price := 2000, status := ProductStatus.active,
          stripe_product_id := "prod_0", stripe_price_id := "price_0" }
        {}
        { stripe := { products := [("prod_0", {})],
                      prices := [("price_0", { product := "prod_0", unit_amount := 2000,
                                               active := true, currency := "pln" })],
                      nextId := 1 },
          faults := [none, some (PyExc.invalidRequest "No such price: price_0")] }).2.2.2.trace
      = [RemoteCall.productModify "prod_0", RemoteCall.priceRetrieve "price_0",
         RemoteCall.priceCreate "prod_0" 2000]) ∧
    PyExc.isStripeError (PyExc.invalidRequest "No such price: price_0") = true ∧
    ((create_or_update_product { stripeSecretKey := "sk_test" }
        { pk := 3, name := "Kolczyki", price := 3000, status := ProductStatus.active,
          stripe_product_id := "prod_0", stripe_price_id := "price_0" }
        {}
        { stripe :=
            { products := [("prod_0", {})],
              prices :=
                [("price_0",
                  { product := "prod_0", unit_amount := 1998,
                    active := true, currency := "pln" })],
              nextId := 1 },
          faults := [none, none, some (PyExc.invalidRequest "No such price")] }).1
      = { success := true }) ∧
    ((create_or_update_product { stripeSecretKey := "sk_test" }
        { pk := 3, name := "Kolczyki", price := 3000, status := ProductStatus.active,
          stripe_product_id := "prod_0", stripe_price_id := "price_0" }
        {}
        { stripe :=
            { products := [("prod_0", {})],
              prices :=
                [("price_0",
                  { product := "prod_0", unit_amount := 1998,
                    active := true, currency := "pln" })],
              nextId := 1 },
          faults := [none, none, some (PyExc.invalidRequest "No such price")] }).2.2.2.trace
      = [RemoteCall.productModify "prod_0", RemoteCall.priceRetrieve "price_0",
         RemoteCall.priceArchive "price_0", RemoteCall.priceCreate "prod_0" 3000]) := by
  refine ⟨by decide, by decide, by decide, by decide, by decide⟩

/-- Claim C2 as amended: `create_or_update_product` never raises and always
returns a structured dict — either `success=True` with no error entry, or
`success=False` with an error message (first conjunct).  Any exception that
escapes the `try` body is converted by the two `except` clauses into the
corresponding failure dict (second conjunct), and when no exception escapes
the body — an `InvalidRequestError` raised anywhere inside the inner
retrieve/compare/archive/replace block is handled inside the body by
creating a replacement price — and the id-writeback save does not raise,
the result is `success=True` (third conjunct). -/
theorem C2_amended (settings : Settings) (product row : Product) (st : St) :
    (((create_or_update_product settings product row st).1.success = true ∧
      (create_or_update_product settings product row st).1.error = none) ∨
     ((create_or_update_product settings product row st).1.success = false ∧
      ((create_or_update_product settings product row st).1.error).isSome = true)) ∧
    (∀ (e : PyExc) (p1 : Product) (st1 : St),
      create_or_update_body settings product st = (Except.error e, p1, st1) →
      (create_or_update_product settings product row st).1 = stripeErrorResult e) ∧
    (∀ (p1 : Product) (st1 : St),
      create_or_update_body settings product st = (Except.ok (), p1, st1) →
      (St.takeDbFault st1).1 = none →
      (create_or_update_product settings product row st).1 = { success := true }) := by
  refine ⟨?_, ?_, ?_⟩
  · rcases hb : create_or_update_body settings product st with ⟨res, p1, st1⟩
    cases res with
    | error e =>
      have hres : (create_or_update_product settings product row st).1 = stripeErrorResult e := by
        simp [create_or_update_product, hb]
      rw [hres]
      unfold stripeErrorResult
      split
      · right
        simp
      · right
        simp
    | ok u =>
      cases u
      obtain ⟨stripe1, faults1, dbf1, trace1⟩ := st1
      rcases dbf1 with _ | ⟨f, rest⟩
      · left
        simp [create_or_update_product, hb, St.takeDbFault]
      · cases f with
        | some msg =>
          right
          simp [create_or_update_product, hb, St.takeDbFault]
        | none =>
          left
          simp [create_or_update_product, hb, St.takeDbFault]
  · intro e p1 st1 hb
    simp [create_or_update_product, hb]
  · intro p1 st1 hb hd
    obtain ⟨stripe1, faults1, dbf1, trace1⟩ := st1
    rcases dbf1 with _ | ⟨f, rest⟩
    · simp [create_or_update_product, hb, St.takeDbFault]
    · cases f with
      | some msg => simp [St.takeDbFault] at hd
      | none => simp [create_or_update_product, hb, St.takeDbFault]

/-- Witness for C2 (amended): with an unconfigured secret key the body
raises `ValueError` and the method returns the wrapped failure; with a
configured key and no faults, a fresh product syncs with `success=True`. -/
theorem C2_amended_witness :
    (create_or_update_product { stripeSecretKey := "" } {} {} {}).1 =
      stripeErrorResult
        (PyExc.valueErr "STRIPE_SECRET_KEY is not configured in Django settings") ∧
    (create_or_update_product { stripeSecretKey := "sk_test" }
        { pk := 1, name := "Ring", price := 2000, status := ProductStatus.active } {} {}).1 =
      { success := true } :=
  ⟨(C2_amended { stripeSecretKey := "" } {} {} {}).2.1
      (PyExc.valueErr "STRIPE_SECRET_KEY is not configured in Django settings") {} {}
      (by rfl),
   (C2_amended { stripeSecretKey := "sk_test" }
       { pk := 1, name := "Ring", price := 2000, status := ProductStatus.active } {} {}).2.2
       { pk := 1, name := "Ring", price := 2000, status := ProductStatus.active,
         stripe_product_id := "prod_0", stripe_price_id := "price_1" }
       { stripe :=
           { products :=
               [("prod_0",
                 { name := "Ring", description := none, active := true,
                   metadata_wagtail_id := "1", metadata_slug := "" })],
             prices :=
               [("price_1",
                 { product := "prod_0", unit_amount := 2000,
                   active := true, currency := "pln" })],
             nextId := 2 },
         faults := [], dbFaults := [],
         trace := [RemoteCall.productCreate, RemoteCall.priceCreate "prod_0" 2000] }
       (by rfl) (by decide)⟩

/-- Counterexample to claim C3 as stated: the product's price HAS changed
(from 19.98 PLN, 1998 grosze — from which the stored remote amount 1998 was
computed — to 19.99 PLN, 1999 grosze), `create_or_update_product` is called
and the remote price lookup succeeds, yet the stored `stripe_price_id` is
unchanged, no remote Price is created and the old price is not archived:
both prices float-truncate to the same 1998 grosze, so the code's
amount comparison sees no change. -/
theorem C3_counterexample :
    price_to_grosze 1998 = 1998 ∧
    price_to_grosze 1999 = 1998 ∧
    ((create_or_update_product { stripeSecretKey := "sk_test" }
        { pk := 3, name := "Kolczyki", price := 1999, status := ProductStatus.active,
          stripe_product_id := "prod_0", stripe_price_id := "price_0" }
        {}
        { stripe :=
            { products := [("prod_0", {})],
              prices :=
                [("price_0",
                  { product := "prod_0", unit_amount := 1998,
                    active := true, currency := "pln" })],
              nextId := 1 } }).1 = { success := true }) ∧
    ((create_or_update_product { stripeSecretKey := "sk_test" }
        { pk := 3, name := "Kolczyki", price := 1999, status := ProductStatus.active,
          stripe_product_id := "prod_0", stripe_price_id := "price_0" }
        {}
        { stripe :=
            { products := [("prod_0", {})],
              prices :=
                [("price_0",
                  { product := "prod_0", unit_amount := 1998,
                    active := true, currency := "pln" })],
              nextId := 1 } }).2.1.stripe_price_id = "price_0") ∧
    ((create_or_update_product { stripeSecretKey := "sk_test" }
        { pk := 3, name := "Kolczyki", price := 1999, status := ProductStatus.active,
          stripe_product_id := "prod_0", stripe_price_id := "price_0" }
        {}
        { stripe :=
            { products := [("prod_0", {})],
              prices :=
                [("price_0",
                  { product := "prod_0", unit_amount := 1998,
                    active := true, currency := "pln" })],
              nextId := 1 } }).2.2.2.stripe.prices =
      [("price_0",
        { product := "prod_0", unit_amount := 1998, active := true, currency := "pln" })]) := by
  refine ⟨by decide, by decide, by decide, by decide, by decide⟩

/-- Claim C3 as amended: for a product with a remote product id, when the
FRESHLY COMPUTED minor-unit amount differs from the remote price's stored
amount and the remote price lookup succeeds, the stored `stripe_price_id`
changes to the freshly created price's id, the previously stored remote
Price is marked inactive, and a new remote Price with the freshly computed
amount is appended (first conjunct); when the remote price lookup raises
`InvalidRequestError`, a replacement Price is created unconditionally and
its id stored (second conjunct). -/
theorem C3_price_replacement (settings : Settings) (p row : Product) (st : St)
    (rp : RemotePrice) (m : String)
    (hkey : settings.stripeSecretKey ≠ "")
    (hid : p.stripe_product_id ≠ "")
    (hdb : st.dbFaults = []) :
    (st.faults = [] →
     lookupAssoc st.stripe.prices p.stripe_price_id = some rp →
     rp.unit_amount ≠ price_to_grosze p.price →
     p.stripe_price_id ≠ freshPriceId st.stripe →
     (create_or_update_product settings p row st).1 = { success := true } ∧
     (create_or_update_product settings p row st).2.1.stripe_price_id =
       freshPriceId st.stripe ∧
     (create_or_update_product settings p row st).2.1.stripe_price_id ≠
       p.stripe_price_id ∧
     (create_or_update_product settings p row st).2.2.2.stripe.prices =
       updateAssoc st.stripe.prices p.stripe_price_id (fun r => { r with active := false }) ++
         [(freshPriceId st.stripe,
           { product := p.stripe_product_id, unit_amount := price_to_grosze p.price,
             active := true, currency := SHIPPING_CURRENCY })]) ∧
    (st.faults = [none, some (PyExc.invalidRequest m)] →
     (create_or_update_product settings p row st).1 = { success := true } ∧
     (create_or_update_product settings p row st).2.1.stripe_price_id =
       freshPriceId st.stripe ∧
     (create_or_update_product settings p row st).2.2.2.stripe.prices =
       st.stripe.prices ++
         [(freshPriceId st.stripe,
           { product := p.stripe_product_id, unit_amount := price_to_grosze p.price,
             active := true, currency := SHIPPING_CURRENCY })]) := by
  obtain ⟨stripe, faults, dbf, trace⟩ := st
  dsimp only at hdb ⊢
  subst hdb
  constructor
  · intro hfaults hlook hne hfresh
    subst hfaults
    refine ⟨?_, ?_, ?_, ?_⟩ <;>
      simp [create_or_update_product, create_or_update_body, price_update_try,
        get_stripe_api_key, stripeProductUpdate, stripePriceRetrieve,
        stripePriceArchive, stripePriceCreate,
        freshPriceId, St.takeFault, St.takeDbFault, hkey, hid, hlook, hne]
    · exact fun h => hfresh h.symm
  · intro hfaults
    subst hfaults
    refine ⟨?_, ?_, ?_⟩ <;>
      simp [create_or_update_product, create_or_update_body, price_update_try,
        get_stripe_api_key, stripeProductUpdate, stripePriceRetrieve, stripePriceCreate,
        freshPriceId, St.takeFault, St.takeDbFault, hkey, hid]

/-- Witness for C3 (amended): a synced product whose price changed from
20.00 PLN (stored remote amount 2000) to 30.00 PLN gets a fresh `price_2`,
the old `price_1` is archived and the new amount 3000 is created; and with
an injected lookup `InvalidRequestError` a replacement is likewise
created. -/
theorem C3_price_replacement_witness :
    ((create_or_update_product { stripeSecretKey := "sk_test" }
        { pk := 1, name := "Ring", price := 3000, status := ProductStatus.active,
          stripe_product_id := "prod_0", stripe_price_id := "price_1" }
        {}
        { stripe :=
            { products := [("prod_0", {})],
              prices :=
                [("price_1",
                  { product := "prod_0", unit_amount := 2000,
                    active := true, currency := "pln" })],
              nextId := 2 } }).2.1.stripe_price_id = "price_2") ∧
    ((create_or_update_product { stripeSecretKey := "sk_test" }
        { pk := 1, name := "Ring", price := 3000, status := ProductStatus.active,
          stripe_product_id := "prod_0", stripe_price_id := "price_1" }
        {}
        { stripe :=
            { products := [("prod_0", {})],
              prices :=
                [("price_1",
                  { product := "prod_0", unit_amount := 2000,
                    active := true, currency := "pln" })],
              nextId := 2 } }).2.2.2.stripe.prices =
      [("price_1", { product := "prod_0", unit_amount := 2000,
                     active := false, currency := "pln" }),
       ("price_2", { product := "prod_0", unit_amount := 3000,
                     active := true, currency := "pln" })]) ∧
    ((create_or_update_product { stripeSecretKey := "sk_test" }
        { pk := 1, name := "Ring", price := 3000, status := ProductStatus.active,
          stripe_product_id := "prod_0", stripe_price_id := "price_1" }
        {}
        { stripe :=
            { products := [("prod_0", {})],
              prices :=
                [("price_1",
                  { product := "prod_0", unit_amount := 2000,
                    active := true, currency := "pln" })],
              nextId := 2 },
          faults := [none, some (PyExc.invalidRequest "No such price")] }).2.1.stripe_price_id
      = "price_2") := by
  have hA := (C3_price_replacement { stripeSecretKey := "sk_test" }
    { pk := 1, name := "Ring", price := 3000, status := ProductStatus.active,
      stripe_product_id := "prod_0", stripe_price_id := "price_1" }
    {}
    { stripe :=
        { products := [("prod_0", {})],
          prices :=
            [("price_1",
              { product := "prod_0", unit_amount := 2000,
                active := true, currency := "pln" })],
          nextId := 2 } }
    { product := "prod_0", unit_amount := 2000, active := true, currency := "pln" }
    "unused" (by decide) (by decide) rfl).1 rfl rfl (by decide) (by decide)
  have hB := (C3_price_replacement { stripeSecretKey := "sk_test" }
    { pk := 1, name := "Ring", price := 3000, status := ProductStatus.active,
      stripe_product_id := "prod_0", stripe_price_id := "price_1" }
    {}
    { stripe :=
        { products := [("prod_0", {})],
          prices :=
            [("price_1",
              { product := "prod_0", unit_amount := 2000,
                active := true, currency := "pln" })],
          nextId := 2 },
      faults := [none, some (PyExc.invalidRequest "No such price")] }
    { product := "prod_0", unit_amount := 2000, active := true, currency := "pln" }
    "No such price" (by decide) (by decide) rfl).2 rfl
  refine ⟨hA.2.1, ?_, hB.2.1⟩
  have := hA.2.2.2
  simpa [updateAssoc, freshPriceId, natDigits, natDigitsL, natDigitsF] using this

/-- Claim C4: idempotence of `create_or_update_product`.  For a product
with a remote product id whose remote price's stored amount equals the
freshly computed amount (the state after a first successful call with an
unchanged price), a second call succeeds, leaves `stripe_price_id` exactly
as it was, performs only the product-update and price-retrieve remote calls,
and creates no remote Price object: the remote price store is unchanged. -/
theorem C4_create_or_update_idempotent (settings : Settings) (p row : Product) (st : St)
    (rp : RemotePrice)
    (hkey : settings.stripeSecretKey ≠ "")
    (hid : p.stripe_product_id ≠ "")
    (hfaults : st.faults = [])
    (hdb : st.dbFaults = [])
    (hlook : lookupAssoc st.stripe.prices p.stripe_price_id = some rp)
    (hamt : rp.unit_amount = price_to_grosze p.price) :
    (create_or_update_product settings p row st).1 = { success := true } ∧
    (create_or_update_product settings p row st).2.1.stripe_price_id = p.stripe_price_id ∧
    (create_or_update_product settings p row st).2.2.2.stripe.prices = st.stripe.prices ∧
    (create_or_update_product settings p row st).2.2.2.trace =
      st.trace ++ [RemoteCall.productModify p.stripe_product_id,
                   RemoteCall.priceRetrieve p.stripe_price_id] := by
  obtain ⟨stripe, faults, dbf, trace⟩ := st
  dsimp only at hfaults hdb hlook ⊢
  subst hfaults
  subst hdb
  simp [create_or_update_product, create_or_update_body, price_update_try,
    get_stripe_api_key, stripeProductUpdate, stripePriceRetrieve,
    St.takeFault, St.takeDbFault, hkey, hid, hlook, hamt]

/-- Witness for C4: a synced product (remote amount 2000 grosze for price
20.00 PLN) re-synced: nothing changes. -/
theorem C4_create_or_update_idempotent_witness :
    (create_or_update_product { stripeSecretKey := "sk_test" }
        { pk := 1, name := "Ring", price := 2000, status := ProductStatus.active,
          stripe_product_id := "prod_0", stripe_price_id := "price_1" }
        {}
        { stripe :=
            { products :=
                [("prod_0",
                  { name := "Ring", description := none, active := true,
                    metadata_wagtail_id := "1", metadata_slug := "" })],
              prices :=
                [("price_1",
                  { product := "prod_0", unit_amount := 2000,
                    active := true, currency := "pln" })],
              nextId := 2 } }).1 = { success := true } ∧
    (create_or_update_product { stripeSecretKey := "sk_test" }
        { pk := 1, name := "Ring", price := 2000, status := ProductStatus.active,
          stripe_product_id := "prod_0", stripe_price_id := "price_1" }
        {}
        { stripe :=
            { products :=
                [("prod_0",
                  { name := "Ring", description := none, active := true,
                    metadata_wagtail_id := "1", metadata_slug := "" })],
              prices :=
                [("price_1",
                  { product := "prod_0", unit_amount := 2000,
                    active := true, currency := "pln" })],
              nextId := 2 } }).2.1.stripe_price_id = "price_1" := by
  have h := C4_create_or_update_idempotent { stripeSecretKey := "sk_test" }
    { pk := 1, name := "Ring", price := 2000, status := ProductStatus.active,
      stripe_product_id := "prod_0", stripe_price_id := "price_1" }
    {}
    { stripe :=
        { products :=
            [("prod_0",
              { name := "Ring", description := none, active := true,
                metadata_wagtail_id := "1", metadata_slug := "" })],
          prices :=
            [("price_1",
              { product := "prod_0", unit_amount := 2000,
                active := true, currency := "pln" })],
          nextId := 2 } }
    { product := "prod_0", unit_amount := 2000, active := true, currency := "pln" }
    (by decide) (by decide) rfl rfl rfl (by decide)
  exact ⟨h.1, h.2.1⟩

/-- Claim C6: the webhook handler's error-to-status mapping.  For every
request: absent signature → 400 (whatever the payload yields); signature
present but signing secret unconfigured → 500; with the secret configured:
invalid signature → 400, payload parse error → 400, and for a
`checkout.session.completed` event, `product_id` missing from the session
metadata → 400, non-numeric → 400, no matching product → 404, any other
processing exception in that branch → 500. -/
theorem C6_webhook_status_codes (settings : Settings) (sig m sid pid_str : String)
    (construct : ConstructOutcome) (db : Int → DbLookup) (pid : Int) (now : Nat) (st : St)
    (hsecret : settings.stripeWebhookSecret ≠ "") :
    ((stripe_webhook settings none construct db now st).1.code = 400) ∧
    ((stripe_webhook { settings with stripeWebhookSecret := "" } (some sig) construct db now
        st).1.code = 500) ∧
    ((stripe_webhook settings (some sig) (ConstructOutcome.sig_error m) db now st).1.code = 400) ∧
    ((stripe_webhook settings (some sig) (ConstructOutcome.parse_error m) db now st).1.code = 400) ∧
    ((stripe_webhook settings (some sig)
        (ConstructOutcome.ok
          { type := EventType.checkout_session_completed,
            session := { id := sid, metadata_product_id := none } })
        db now st).1.code = 400) ∧
    (pyInt pid_str = none →
      (stripe_webhook settings (some sig)
          (ConstructOutcome.ok
            { type := EventType.checkout_session_completed,
              session := { id := sid, metadata_product_id := some pid_str } })
          db now st).1.code = 400) ∧
    (pyInt pid_str = some pid → db pid = DbLookup.does_not_exist →
      (stripe_webhook settings (some sig)
          (ConstructOutcome.ok
            { type := EventType.checkout_session_completed,
              session := { id := sid, metadata_product_id := some pid_str } })
          db now st).1.code = 404) ∧
    (pyInt pid_str = some pid → db pid = DbLookup.db_error m →
      (stripe_webhook settings (some sig)
          (ConstructOutcome.ok
            { type := EventType.checkout_session_completed,
              session := { id := sid, metadata_product_id := some pid_str } })
          db now st).1.code = 500) := by
  refine ⟨rfl, rfl, ?_, ?_, ?_, ?_, ?_, ?_⟩
  · simp [stripe_webhook, hsecret]
  · simp [stripe_webhook, hsecret]
  · simp [stripe_webhook, hsecret]
  · intro hp
    simp [stripe_webhook, hsecret, hp]
  · intro hp hdb
    simp [stripe_webhook, hsecret, hp, hdb]
  · intro hp hdb
    simp [stripe_webhook, hsecret, hp, hdb]

/-- Witness for C6: a concrete 404 delivery — configured secret, valid
signature, `checkout.session.completed` with `product_id` 5 and no matching
product; plus the concrete no-signature 400. -/
theorem C6_webhook_status_codes_witness :
    ((stripe_webhook { stripeWebhookSecret := "whsec" } none
        (ConstructOutcome.parse_error "bad json") (fun _ => DbLookup.does_not_exist) 0
        {}).1.code = 400) ∧
    ((stripe_webhook { stripeWebhookSecret := "whsec" } (some "t=1,v1=x")
        (ConstructOutcome.ok
          { type := EventType.checkout_session_completed,
            session := { id := "cs_9", metadata_product_id := some "5" } })
        (fun _ => DbLookup.does_not_exist) 0 {}).1.code = 404) :=
  ⟨(C6_webhook_status_codes { stripeWebhookSecret := "whsec" } "t=1,v1=x" "bad json" "cs_9" "5"
      (ConstructOutcome.parse_error "bad json") (fun _ => DbLookup.does_not_exist) 5 0 {}
      (by decide)).1,
   (C6_webhook_status_codes { stripeWebhookSecret := "whsec" } "t=1,v1=x" "bad json" "cs_9" "5"
      (ConstructOutcome.parse_error "bad json") (fun _ => DbLookup.does_not_exist) 5 0 {}
      (by decide)).2.2.2.2.2.2.1 (by decide) rfl⟩

/-- Witness for C10: concrete webhook delivery where the local save of
`mark_as_sold` raises; the handler still answers 200/success. -/
theorem C10_webhook_200_despite_mark_as_sold_failure_witness :
    (mark_as_sold { stripeSecretKey := "sk", stripeWebhookSecret := "whsec" } 99
        { pk := 5, skip_stripe_sync := true } { pk := 5 }
        { dbFaults := [some "database is locked"] }).1.success = false ∧
    (stripe_webhook { stripeSecretKey := "sk", stripeWebhookSecret := "whsec" } (some "t=1,v1=abc")
        (ConstructOutcome.ok
          { type := EventType.checkout_session_completed,
            session := { id := "cs_1", metadata_product_id := some "5" } })
        (fun i => if i = 5 then DbLookup.found { pk := 5 } { pk := 5 } else DbLookup.does_not_exist)
        99 { dbFaults := [some "database is locked"] }).1
      = { code := 200, body := { status := some "success" } } :=
  C10_webhook_200_despite_mark_as_sold_failure
    { stripeSecretKey := "sk", stripeWebhookSecret := "whsec" } "t=1,v1=abc" "cs_1" "5"
    "database is locked" 5
    (fun i => if i = 5 then DbLookup.found { pk := 5 } { pk := 5 } else DbLookup.does_not_exist)
    { pk := 5 } { pk := 5 } 99 { dbFaults := [some "database is locked"] } []
    (by decide) (by decide) (by decide) rfl

end Piorka
